import Mathlib

/-!
Verification of the aborg core: the track-number inference engine
(`src/track.rs`) and the schema/template renderer (`src/schema.rs`).

The inference engine is translated regex-by-regex from the source: each
Rust `Regex` becomes an explicit matcher over `List Char`, including word
boundaries, greedy repetition with the (limited) backtracking the
patterns admit, leftmost-first matching for `captures`, and leftmost
non-overlapping iteration for `captures_iter`.  Numeric parsing models
Rust's `str::parse::<u16>()`: success exactly when the digit run's value
is below 2^16.
-/

set_option autoImplicit false

/-- ASCII decimal digit, Rust regex `\d` (ASCII haystacks). -/
def isDigitC (c : Char) : Bool := c.isDigit

/-- ASCII letter, the Rust regex class `[a-zA-Z]`. -/
def isAlphaC (c : Char) : Bool := c.isAlpha

/-- Word character for `\b`: letter, digit or underscore. -/
def isWordC (c : Char) : Bool := c.isAlpha || c.isDigit || c = '_'

/-- Whitespace for `\s` (ASCII cases). -/
def isSpaceC (c : Char) : Bool :=
  c = ' ' || c = '\t' || c = '\n' || c = '\r' || c = Char.ofNat 11 || c = Char.ofNat 12

/-- Word boundary on the left of the current position, which starts with a
word character: holds when there is no previous character or it is not a
word character. -/
def noWordBefore : Option Char → Bool
  | none => true
  | some c => !isWordC c

/-- Word boundary on the right of a digit run: end of input or a
non-word character. -/
def boundaryAfterL : List Char → Bool
  | [] => true
  | c :: _ => !isWordC c

/-- Skip `\s*`. -/
def dropSpaces (l : List Char) : List Char := l.dropWhile isSpaceC

/-- Skip the optional `#?`. -/
def dropHash : List Char → List Char
  | '#' :: t => t
  | l => l

/-- Value of a digit run, as `str::parse` computes it (leading zeros fine). -/
def digitsVal (ds : List Char) : Nat :=
  ds.foldl (fun a c => a * 10 + (c.toNat - ('0').toNat)) 0

/-- Rust `caps[i].parse::<u16>().ok()`: the digit run's value when it fits
in 16 bits, otherwise `none` (overflow is a parse error). -/
def u16parse (ds : List Char) : Option Nat :=
  if digitsVal ds < 65536 then some (digitsVal ds) else none

/-- Rust `if let Ok(num) = caps[i].parse::<u16>() { ignore_list.push(num) }`. -/
def u16keep (ds : List Char) : List Nat :=
  if digitsVal ds < 65536 then [digitsVal ds] else []

/-- Case-insensitive literal match (regex `(?i)` on ASCII keywords);
returns the rest of the input on success. -/
def matchCI : List Char → List Char → Option (List Char)
  | [], l => some l
  | _ :: _, [] => none
  | k :: ks, c :: cs => if c.toLower = k.toLower then matchCI ks cs else none

/-- Leftmost-first search: try a single-position matcher at every position
from the left, tracking the previous character for `\b`.  Models
`Regex::captures` for the patterns below (each matcher is deterministic at
a given position). -/
def scanFind (f : Option Char → List Char → Option (List Char)) :
    Option Char → List Char → Option (List Char)
  | prev, [] => f prev []
  | prev, c :: t =>
    match f prev (c :: t) with
    | some x => some x
    | none => scanFind f (some c) t

/-- Single-position matcher for `(?i)\bbook\s*#?\s*(\d+)\b`
(track.rs line 47); returns the captured digit run. -/
def bookMatchAt (prev : Option Char) (l : List Char) : Option (List Char) :=
  if noWordBefore prev then
    match matchCI (("book").data) l with
    | some r1 =>
      let r2 := dropSpaces (dropHash (dropSpaces r1))
      let ds := r2.takeWhile isDigitC
      let r3 := r2.dropWhile isDigitC
      if ds.isEmpty then none
      else if boundaryAfterL r3 then some ds else none
    | none => none
  else none

/-- The three captured digit runs of a date pattern. -/
abbrev Caps3 := List Char × List Char × List Char

/-- Date separator class: dash, slash or dot. -/
def isSepDot (c : Char) : Bool := c = '-' || c = '/' || c = '.'

/-- Single-position matcher for the ISO date pattern of track.rs line 55:
word boundary, 4-digit capture, separator (dash, slash or dot), 1-2 digit
capture, separator, 1-2 digit capture, word boundary.  A maximal digit
run stands in for the greedy counted repetitions: a count of exactly 4
demands the maximal run have length exactly 4 (a longer run puts a digit
where the separator must be, and counted repetition does not backtrack
below its count); a 1-to-2 count followed by a separator or a boundary
demands length 1 or 2 of the maximal run.  Returns the captures and the
rest of the input after the match. -/
def dateIsoMatchAt (prev : Option Char) (l : List Char) : Option (Caps3 × List Char) :=
  if noWordBefore prev then
    let y := l.takeWhile isDigitC
    let r1 := l.dropWhile isDigitC
    if y.length = 4 then
      match r1 with
      | s1 :: r2 =>
        if isSepDot s1 then
          let m := r2.takeWhile isDigitC
          let r3 := r2.dropWhile isDigitC
          if m.length = 1 || m.length = 2 then
            match r3 with
            | s2 :: r4 =>
              if isSepDot s2 then
                let d := r4.takeWhile isDigitC
                let r5 := r4.dropWhile isDigitC
                if (d.length = 1 || d.length = 2) && boundaryAfterL r5 then
                  some ((y, m, d), r5)
                else none
              else none
            | [] => none
          else none
        else none
      | [] => none
    else none
  else none

/-- Single-position matcher for the common date pattern of track.rs
line 69: word boundary, 1-2 digit capture, separator, 1-2 digit capture,
separator, 4-digit capture, word boundary. -/
def dateCommonMatchAt (prev : Option Char) (l : List Char) : Option (Caps3 × List Char) :=
  if noWordBefore prev then
    let d1 := l.takeWhile isDigitC
    let r1 := l.dropWhile isDigitC
    if d1.length = 1 || d1.length = 2 then
      match r1 with
      | s1 :: r2 =>
        if isSepDot s1 then
          let d2 := r2.takeWhile isDigitC
          let r3 := r2.dropWhile isDigitC
          if d2.length = 1 || d2.length = 2 then
            match r3 with
            | s2 :: r4 =>
              if isSepDot s2 then
                let y := r4.takeWhile isDigitC
                let r5 := r4.dropWhile isDigitC
                if y.length = 4 && boundaryAfterL r5 then
                  some ((d1, d2, y), r5)
                else none
              else none
            | [] => none
          else none
        else none
      | [] => none
    else none
  else none

/-- Single-position matcher for the short date pattern of track.rs
line 84: word boundary, 1-2 digit capture, separator, 1-2 digit capture,
separator, exactly-2-digit capture, word boundary. -/
def dateShortMatchAt (prev : Option Char) (l : List Char) : Option (Caps3 × List Char) :=
  if noWordBefore prev then
    let d1 := l.takeWhile isDigitC
    let r1 := l.dropWhile isDigitC
    if d1.length = 1 || d1.length = 2 then
      match r1 with
      | s1 :: r2 =>
        if isSepDot s1 then
          let d2 := r2.takeWhile isDigitC
          let r3 := r2.dropWhile isDigitC
          if d2.length = 1 || d2.length = 2 then
            match r3 with
            | s2 :: r4 =>
              if isSepDot s2 then
                let y := r4.takeWhile isDigitC
                let r5 := r4.dropWhile isDigitC
                if y.length = 2 && boundaryAfterL r5 then
                  some ((d1, d2, y), r5)
                else none
              else none
            | [] => none
          else none
        else none
      | [] => none
    else none
  else none

/-- Leftmost non-overlapping iteration, modelling `captures_iter`: after a
match the search resumes at the match end (whose previous character is the
last captured digit).  `fuel` bounds the recursion; each step consumes at
least one character, so `l.length + 1` is always enough. -/
def scanIter (f : Option Char → List Char → Option (Caps3 × List Char)) :
    Nat → Option Char → List Char → List Caps3
  | 0, _, _ => []
  | fuel + 1, prev, l =>
    match f prev l with
    | some (caps, rest) => caps :: scanIter f fuel caps.2.2.getLast? rest
    | none =>
      match l with
      | [] => []
      | c :: t => scanIter f fuel (some c) t

/-- All ISO-form date captures of the filename (track.rs lines 55 to 66). -/
def dateIsoCaps (l : List Char) : List Caps3 := scanIter dateIsoMatchAt (l.length + 1) none l

/-- All common-form date captures (track.rs lines 69 to 80). -/
def dateCommonCaps (l : List Char) : List Caps3 := scanIter dateCommonMatchAt (l.length + 1) none l

/-- All short-form date captures (track.rs lines 84 to 95). -/
def dateShortCaps (l : List Char) : List Caps3 := scanIter dateShortMatchAt (l.length + 1) none l

/-- The four context keywords of track.rs line 98, tried in pattern order
(their first letters differ, so at most one can match at a position). -/
def ctxKw : List (List Char) := [("section").data, ("chapter").data, ("part").data, ("track").data]

/-- Try each alternative of the keyword group. -/
def matchAnyCI : List (List Char) → List Char → Option (List Char)
  | [], _ => none
  | k :: ks, l =>
    match matchCI k l with
    | some r => some r
    | none => matchAnyCI ks l

/-- Single-position matcher for
`(?i)\b(section|chapter|part|track)\s*#?\s*(\d+)\b` (track.rs line 98);
returns the second capture, the digit run. -/
def contextMatchAt (prev : Option Char) (l : List Char) : Option (List Char) :=
  if noWordBefore prev then
    match matchAnyCI ctxKw l with
    | some r1 =>
      let r2 := dropSpaces (dropHash (dropSpaces r1))
      let ds := r2.takeWhile isDigitC
      let r3 := r2.dropWhile isDigitC
      if ds.isEmpty then none
      else if boundaryAfterL r3 then some ds else none
    | none => none
  else none

/-- Single-position matcher for `(?i)\b(\d+)\s*of\s*\d+` (track.rs
line 104); returns the first capture. -/
def ofMatchAt (prev : Option Char) (l : List Char) : Option (List Char) :=
  if noWordBefore prev then
    let ds := l.takeWhile isDigitC
    let r1 := l.dropWhile isDigitC
    if ds.isEmpty then none
    else
      match matchCI (("of").data) (dropSpaces r1) with
      | some r2 =>
        if ((dropSpaces r2).takeWhile isDigitC).isEmpty then none else some ds
      | none => none
  else none

/-- Anchored matcher for `^(?:[a-zA-Z]+[_\s-]*)?(\d{1,3})\s*[-_.]`
(track.rs line 116).  The optional alphabetic-and-separator lead is taken
greedily when the string starts with a letter; when it does, the
no-lead alternative cannot match either (the first character is not a
digit), so no further backtracking arises.  The counted repetition
`(\d{1,3})` followed by `\s*[-_.]` forces the maximal digit run to have
length 1 to 3. -/
def startMatch (l : List Char) : Option (List Char) :=
  let a := l.takeWhile isAlphaC
  let r1 := l.dropWhile isAlphaC
  let r2 := if a.isEmpty then l else r1.dropWhile (fun c => c = '_' || c = '-' || isSpaceC c)
  let ds := r2.takeWhile isDigitC
  let r3 := r2.dropWhile isDigitC
  if ds.isEmpty || decide (3 < ds.length) then none
  else
    match dropSpaces r3 with
    | c :: _ => if c = '-' || c = '_' || c = '.' then some ds else none
    | [] => none

/-- Single-position matcher for the track-total pattern of track.rs
line 127: word boundary, 1-3 digit capture, a dash, slash or underscore,
a digit run, word boundary; returns the first capture. -/
def trackTotalMatchAt (prev : Option Char) (l : List Char) : Option (List Char) :=
  if noWordBefore prev then
    let ds := l.takeWhile isDigitC
    let r1 := l.dropWhile isDigitC
    if ds.isEmpty || decide (3 < ds.length) then none
    else
      match r1 with
      | s :: r2 =>
        if s = '-' || s = '/' || s = '_' then
          let ds2 := r2.takeWhile isDigitC
          let r3 := r2.dropWhile isDigitC
          if ds2.isEmpty then none
          else if boundaryAfterL r3 then some ds else none
        else none
      | [] => none
  else none

/-- Leftmost matcher for `[-_]\s*(\d+)$` (track.rs line 138): the first
separator position from which whitespace then digits reach the very end. -/
def suffixMatch : List Char → Option (List Char)
  | [] => none
  | c :: t =>
    if c = '-' || c = '_' then
      let r1 := dropSpaces t
      let ds := r1.takeWhile isDigitC
      let r2 := r1.dropWhile isDigitC
      if !ds.isEmpty && r2.isEmpty then some ds else suffixMatch t
    else suffixMatch t

/-- Matcher for `^\s*(\d+)\s*$` (track.rs line 150). -/
def soloMatch (l : List Char) : Option (List Char) :=
  let r1 := dropSpaces l
  let ds := r1.takeWhile isDigitC
  let r2 := dropSpaces (r1.dropWhile isDigitC)
  if !ds.isEmpty && r2.isEmpty then some ds else none

/-- Components an ignore-list entry contributes per date capture, in push
order: each of the three captures that parses as `u16`. -/
def caps3Comps (c : Caps3) : List Nat := u16keep c.1 ++ u16keep c.2.1 ++ u16keep c.2.2

/-- All components contributed by a list of date captures, in order. -/
def compsOfAll : List Caps3 → List Nat
  | [] => []
  | c :: t => caps3Comps c ++ compsOfAll t

/-- Contribution of the book rule (track.rs lines 47 to 52): the digit run
after the first `book` keyword, when it parses. -/
def bookPart (l : List Char) : List Nat :=
  match scanFind bookMatchAt none l with
  | some ds => u16keep ds
  | none => []

/-- The ignore list built by track.rs lines 44 to 95, in push order. -/
def ignoreListOf (l : List Char) : List Nat :=
  bookPart l ++ compsOfAll (dateIsoCaps l) ++ compsOfAll (dateCommonCaps l)
    ++ compsOfAll (dateShortCaps l)

/-- Rule 10, the solo-number pattern (track.rs lines 150 to 158); after it
the function returns `None`. -/
def ruleSolo (l : List Char) (ign : List Nat) : Option Nat :=
  match soloMatch l with
  | some ds =>
    match u16parse ds with
    | some n => if ign.contains n then none else some n
    | none => none
  | none => none

/-- Rule 9, the delimited suffix (track.rs lines 138 to 146); on
non-match, overflow, or an ignored candidate the cascade continues. -/
def ruleSuffix (l : List Char) (ign : List Nat) : Option Nat :=
  match suffixMatch l with
  | some ds =>
    match u16parse ds with
    | some n => if ign.contains n then ruleSolo l ign else some n
    | none => ruleSolo l ign
  | none => ruleSolo l ign

/-- Rule 8, the track-total pattern (track.rs lines 127 to 135). -/
def ruleTrackTotal (l : List Char) (ign : List Nat) : Option Nat :=
  match scanFind trackTotalMatchAt none l with
  | some ds =>
    match u16parse ds with
    | some n => if ign.contains n then ruleSuffix l ign else some n
    | none => ruleSuffix l ign
  | none => ruleSuffix l ign

/-- Rule 7, the start pattern (track.rs lines 116 to 124). -/
def ruleStart (l : List Char) (ign : List Nat) : Option Nat :=
  match startMatch l with
  | some ds =>
    match u16parse ds with
    | some n => if ign.contains n then ruleTrackTotal l ign else some n
    | none => ruleTrackTotal l ign
  | none => ruleTrackTotal l ign

/-- Rule 6, the `N of M` pattern (track.rs lines 104 to 112). -/
def ruleOf (l : List Char) (ign : List Nat) : Option Nat :=
  match scanFind ofMatchAt none l with
  | some ds =>
    match u16parse ds with
    | some n => if ign.contains n then ruleStart l ign else some n
    | none => ruleStart l ign
  | none => ruleStart l ign

/-- `parse_from_filename` (track.rs lines 42 to 161) on a character list:
build the ignore list, then run the cascade.  Rule 5 (explicit context,
lines 97 to 101) returns `caps[2].parse().ok()` directly, so an
unparseable (overflowing) context number ends the whole function with
`None`. -/
def parseFromFilenameL (l : List Char) : Option Nat :=
  let ign := ignoreListOf l
  match scanFind contextMatchAt none l with
  | some ds => u16parse ds
  | none => ruleOf l ign

/-- `parse_from_filename` on a string. -/
def parse_from_filename (s : String) : Option Nat := parseFromFilenameL s.data

/-- `get_track_number` (track.rs lines 12 to 31).  The embedded-tag probe
is an external collaborator; `tag` is the track value it supplies when
every step of the probe succeeds (`none` covers every failure, which the
code lets fall through).  The source checks `track > 0` on the `u32`
value and then casts with `as u16`, hence the `% 65536`. -/
def get_track_number (tag : Option Nat) (s : String) : Option Nat :=
  match tag with
  | some track => if 0 < track then some (track % 65536) else parse_from_filename s
  | none => parse_from_filename s

/-- The unit-test table of track.rs lines 170 to 194, checked against the
embedding (every row of the Rust test suite). -/
theorem parse_from_filename_matches_rust_tests :
    parse_from_filename ("02 - book title") = some 2
    ∧ parse_from_filename ("02 - book with number 3 in title") = some 2
    ∧ parse_from_filename ("2 - book with title - book 3") = some 2
    ∧ parse_from_filename ("Book 3 - title - 02") = some 2
    ∧ parse_from_filename ("Book3 - title - 2") = some 2
    ∧ parse_from_filename ("Book 3 - title_2") = some 2
    ∧ parse_from_filename ("Book3 - title with number 4 in it - 2 of 13") = some 2
    ∧ parse_from_filename ("book 3 - title - 2of13") = some 2
    ∧ parse_from_filename ("Author - Title with number 4 in it") = none
    ∧ parse_from_filename ("Book 3 - title") = none
    ∧ parse_from_filename ("Title with number 4 in it") = none
    ∧ parse_from_filename ("Book 3 - section 7 - title") = some 7
    ∧ parse_from_filename ("Book3 - section7 - title") = some 7
    ∧ parse_from_filename ("Book 3 - title - section 7") = some 7
    ∧ parse_from_filename ("BH_19-37 title") = some 19
    ∧ parse_from_filename ("19-37 title") = some 19
    ∧ parse_from_filename ("author - title - 19-37") = some 19
    ∧ parse_from_filename ("The Lady of the Camellias_MP3WRAP") = none
    ∧ parse_from_filename ("author - title 2025-11-27 with date") = none
    ∧ parse_from_filename ("author - title 11-27-2025 with date") = none
    ∧ parse_from_filename ("author - title 11/27/2025 with date") = none
    ∧ parse_from_filename ("author - title 11/27/25 with date") = none
    ∧ parse_from_filename ("author - title 11.27.2025 with date") = none := by
  decide

/-!
The schema component (`src/schema.rs`).  The `Metadata` record mirrors
`src/metadata.rs` (its `u16` numbers become `Nat`).  The handlebars
template engine is an external crate whose source is not part of this
repository, so the template language and its strict-mode rendering are
modelled from the specification; everything else in `fmt_path` and
`fmt_file` (derived-field computation, extension filtering, the `unwrap`
calls that turn failures into process aborts) is translated from
schema.rs directly.  A returned `none` from `fmt_file` marks a panic
(an `unwrap` on a `None` or `Err` value); `fmt_path` never panics on a
registered template and returns the render result.
-/

/-- The processed metadata record of metadata.rs lines 30 to 56. -/
structure Metadata where
  title : String
  subtitle : Option String := none
  series : Option String := none
  book_number : Option Nat := none
  book_number_with_zeros : Option String := none
  author : Option String := none
  published_year : Option String := none
  published_date : Option String := none
  genre : Option String := none
  language : Option String := none
  abridged : Option Bool := none
  file_number : Option Nat := none
  file_number_with_zeros : Option String := none
deriving Repr, DecidableEq

/-- Modelled from the spec: the template language
(section 4.2) as an abstract syntax of literal runs, plain field
substitutions, conditional blocks and sequencing; handlebars' parser is
not part of this repository, so templates enter the model already
parsed. -/
inductive Tpl where
  | nil : Tpl
  | lit : String → Tpl
  | field : String → Tpl
  | cond : String → Tpl → Tpl
  | seq : Tpl → Tpl → Tpl
deriving Repr, DecidableEq

/-- A field mapping: field names to rendered values, present fields only
(serde skips `None` fields when serializing `Metadata`). -/
abbrev Fields := List (String × String)

/-- Modelled from the spec: strict-mode rendering
(sections 4.2 and 6): plain substitution inserts the field's value
verbatim and an absent field is a structured error naming that field; a
conditional block renders its body exactly when its field is present and
renders to the empty string when absent; sequencing propagates the first
error. -/
def render : Tpl → Fields → Except String String
  | Tpl.nil, _ => Except.ok ""
  | Tpl.lit s, _ => Except.ok s
  | Tpl.field n, fs =>
    match List.lookup n fs with
    | some v => Except.ok v
    | none => Except.error n
  | Tpl.cond n b, fs =>
    match List.lookup n fs with
    | some _ => render b fs
    | none => Except.ok ""
  | Tpl.seq a b, fs =>
    match render a fs with
    | Except.ok s =>
      match render b fs with
      | Except.ok t => Except.ok (s ++ t)
      | Except.error e => Except.error e
    | Except.error e => Except.error e

/-- Entry of the field mapping for an optional string field. -/
def optS (n : String) : Option String → Fields
  | some v => [(n, v)]
  | none => []

/-- Entry for an optional numeric field, rendered in decimal. -/
def optN (n : String) : Option Nat → Fields
  | some k => [(n, Nat.repr k)]
  | none => []

/-- Entry for an optional boolean field. -/
def optB (n : String) : Option Bool → Fields
  | some b => [(n, if b then ("true") else ("false"))]
  | none => []

/-- The field mapping a `Metadata` record presents to the renderer, in
declaration order, absent options skipped (metadata.rs serde attributes). -/
def fieldsOf (m : Metadata) : Fields :=
  [(("title"), m.title)] ++ optS ("subtitle") m.subtitle ++ optS ("series") m.series
    ++ optN ("book_number") m.book_number
    ++ optS ("book_number_with_zeros") m.book_number_with_zeros
    ++ optS ("author") m.author ++ optS ("published_year") m.published_year
    ++ optS ("published_date") m.published_date ++ optS ("genre") m.genre
    ++ optS ("language") m.language ++ optB ("abridged") m.abridged
    ++ optN ("file_number") m.file_number
    ++ optS ("file_number_with_zeros") m.file_number_with_zeros

/-- Rust `format!` with a zero-fill minimum width: pad the decimal form
with leading zeros up to `w`; a longer number keeps all its digits. -/
def padZeros (w : Nat) (n : Nat) : String :=
  let s := Nat.repr n
  if s.length < w then String.mk (List.replicate (w - s.length) '0') ++ s else s

/-- `Schema::fmt_path` (schema.rs lines 30 to 38): recompute
`book_number_with_zeros` from `book_number` at width 2 (line 33), then
render the path template against the updated record in strict mode.
Returns the mutated record together with the render result. -/
def fmt_path (tpl : Tpl) (m : Metadata) : Metadata × Except String String :=
  let m2 := { m with book_number_with_zeros := m.book_number.map (padZeros 2) }
  (m2, render tpl (fieldsOf m2))

/-- The metadata mutation of schema.rs lines 60 to 62: infer
`file_number` from the tag (an external probe outcome) and the file stem,
and derive `file_number_with_zeros` at width 3. -/
def fmtFileMeta (m : Metadata) (stem : String) (tag : Option Nat) : Metadata :=
  let fn := get_track_number tag stem
  { m with file_number := fn, file_number_with_zeros := fn.map (padZeros 3) }

/-- Rust `Path::file_stem` and `Path::extension` on a plain file name:
split at the last dot, except that a name with no dot, or a leading-dot
name with no further dot, has no extension. -/
def splitLastDot : List Char → Option (List Char × List Char)
  | [] => none
  | c :: t =>
    match splitLastDot t with
    | some (s, e) => some (c :: s, e)
    | none => if c = '.' then some ([], t) else none

/-- Stem and optional extension of a file name, per Rust `Path`. -/
def splitExt (l : List Char) : List Char × Option (List Char) :=
  match l with
  | '.' :: t =>
    match splitLastDot t with
    | some (s, e) => ('.' :: s, some e)
    | none => (l, none)
  | _ =>
    match splitLastDot l with
    | some (s, e) => (s, some e)
    | none => (l, none)

/-- `Schema::fmt_file` (schema.rs lines 48 to 74).  `fname` is the
path's file-name component and `tag` the embedded-tag probe outcome for
the stem.  A result of `none` is a panic: the source unwraps
`file_name()` (so a path without a file name aborts), unwraps
`extension()` (so an extensionless name aborts), and unwraps the strict
render result (so a missing template field aborts).  When the extension
is not in the allowed list the record is untouched and the original full
name is returned. -/
def fmt_file (tpl : Tpl) (m : Metadata) (fname : String) (exts : List String)
    (tag : Option Nat) : Option (Metadata × Except String String) :=
  if fname = "" ∨ fname = "." ∨ fname = ".." then none
  else
    match splitExt fname.data with
    | (_, none) => none
    | (stemL, some extL) =>
      let ext := String.mk extL
      if exts.contains ext then
        let m2 := fmtFileMeta m (String.mk stemL) tag
        match render tpl (fieldsOf m2) with
        | Except.ok s => some (m2, Except.ok (s ++ (".") ++ ext))
        | Except.error _ => none
      else some (m, Except.ok fname)

/-!
Shared helper lemmas about the ignore list.
-/

/-- A component contributed by one capture is in the combined component
list. -/
theorem mem_compsOfAll {cs : List Caps3} {c : Caps3} {x : Nat}
    (hc : c ∈ cs) (hx : x ∈ caps3Comps c) : x ∈ compsOfAll cs := by
  induction cs with
  | nil => cases hc
  | cons a t ih =>
    rcases List.mem_cons.mp hc with h | h
    · subst h
      exact List.mem_append_left _ hx
    · exact List.mem_append_right _ (ih h)

/-- First capture component, when it parses. -/
theorem mem_caps3Comps_fst {c : Caps3} (h : digitsVal c.1 < 65536) :
    digitsVal c.1 ∈ caps3Comps c := by
  unfold caps3Comps u16keep
  rw [if_pos h]
  simp

/-- Second capture component, when it parses. -/
theorem mem_caps3Comps_snd {c : Caps3} (h : digitsVal c.2.1 < 65536) :
    digitsVal c.2.1 ∈ caps3Comps c := by
  unfold caps3Comps u16keep
  rw [if_pos h]
  simp

/-- Third capture component, when it parses. -/
theorem mem_caps3Comps_thd {c : Caps3} (h : digitsVal c.2.2 < 65536) :
    digitsVal c.2.2 ∈ caps3Comps c := by
  unfold caps3Comps u16keep
  rw [if_pos h]
  simp

/-- Anything contributed by an ISO date capture is in the ignore list. -/
theorem mem_ignore_of_iso {l : List Char} {c : Caps3} {x : Nat}
    (hc : c ∈ dateIsoCaps l) (hx : x ∈ caps3Comps c) : x ∈ ignoreListOf l := by
  unfold ignoreListOf
  have h := mem_compsOfAll hc hx
  simp only [List.mem_append]
  tauto

/-- Anything contributed by a common-form date capture is in the ignore
list. -/
theorem mem_ignore_of_common {l : List Char} {c : Caps3} {x : Nat}
    (hc : c ∈ dateCommonCaps l) (hx : x ∈ caps3Comps c) : x ∈ ignoreListOf l := by
  unfold ignoreListOf
  have h := mem_compsOfAll hc hx
  simp only [List.mem_append]
  tauto

/-- Anything contributed by a short-form date capture is in the ignore
list. -/
theorem mem_ignore_of_short {l : List Char} {c : Caps3} {x : Nat}
    (hc : c ∈ dateShortCaps l) (hx : x ∈ caps3Comps c) : x ∈ ignoreListOf l := by
  unfold ignoreListOf
  have h := mem_compsOfAll hc hx
  simp only [List.mem_append]
  tauto

/-!
Claim theorems.
-/

/-- Claim C1: refuted as stated for `fmt_file`, confirming the code bug.
Rendering the file template with a reference to the absent field
`author` makes `fmt_file` abort through the `unwrap` at schema.rs
line 68 (modelled as `none`), instead of returning the structured error
naming the field; `fmt_path` at the same template and record does return
the structured error naming `author`. -/
theorem fmt_file_panics_on_missing_field :
    fmt_file (Tpl.field ("author")) { title := ("T") } ("f.mp3") [("mp3")] none = none
    ∧ (fmt_path (Tpl.field ("author")) { title := ("T") }).2 = Except.error ("author") :=
  ⟨rfl, rfl⟩

/-- Claim C2 counterexample: in
`section 99999 - title - 02` the explicit-context rule matches a digit
run whose value 99999 exceeds the 16-bit range, and the function returns
`None` at once (track.rs line 100 returns `parse().ok()` directly),
whereas continuing the cascade over the remaining rules would deliver 2
from the delimited suffix. -/
theorem context_overflow_counterexample :
    parse_from_filename ("section 99999 - title - 02") = none
    ∧ ruleOf (("section 99999 - title - 02").data)
        (ignoreListOf (("section 99999 - title - 02").data)) = some 2 := by
  decide

/-- Claim C2, amended: a digit run whose value exceeds the 16-bit
ordinal range is a non-match that lets the cascade continue for rules
c through g (the `N of M`, leading-number, track-total, suffix, and solo
rules), but for the explicit-context rule the overflow ends the whole
resolution with `None` instead of continuing. -/
theorem overflow_rule_behavior (l : List Char) (ign : List Nat) (ds : List Char)
    (h : 65536 ≤ digitsVal ds) :
    (scanFind contextMatchAt none l = some ds → parseFromFilenameL l = none)
    ∧ (scanFind ofMatchAt none l = some ds → ruleOf l ign = ruleStart l ign)
    ∧ (startMatch l = some ds → ruleStart l ign = ruleTrackTotal l ign)
    ∧ (scanFind trackTotalMatchAt none l = some ds → ruleTrackTotal l ign = ruleSuffix l ign)
    ∧ (suffixMatch l = some ds → ruleSuffix l ign = ruleSolo l ign)
    ∧ (soloMatch l = some ds → ruleSolo l ign = none) := by
  have hp : u16parse ds = none := by
    unfold u16parse
    rw [if_neg (by omega)]
  refine ⟨?_, ?_, ?_, ?_, ?_, ?_⟩
  · intro h1
    simp only [parseFromFilenameL, h1, hp]
  · intro h1
    simp only [ruleOf, h1, hp]
  · intro h1
    simp only [ruleStart, h1, hp]
  · intro h1
    simp only [ruleTrackTotal, h1, hp]
  · intro h1
    simp only [ruleSuffix, h1, hp]
  · intro h1
    simp only [ruleSolo, h1, hp]

/-- Claim C2 witness: the amended theorem applied at the concrete
overflowing input. -/
theorem overflow_rule_behavior_witness :
    parseFromFilenameL (("section 99999 - title - 02").data) = none :=
  (overflow_rule_behavior (("section 99999 - title - 02").data) [] (("99999").data)
    (by decide)).1 (by decide)

/-- The section 8 example template
`{{author}}/{{#if series}}{{series}}/{{/if}}{{title}}` as a parsed
template. -/
def seriesExampleTpl : Tpl :=
  Tpl.seq (Tpl.field ("author"))
    (Tpl.seq (Tpl.lit ("/"))
      (Tpl.seq (Tpl.cond ("series") (Tpl.seq (Tpl.field ("series")) (Tpl.lit ("/"))))
        (Tpl.field ("title"))))

/-- Claim C3: a conditional block renders its body exactly when its
field is present, with no further check on the value (even the empty
string keeps the block); when the field is absent the whole block
renders to nothing, so the section 8 example with `series` absent gives
exactly `Author/Title`. -/
theorem cond_block_presence_only (fs : Fields) (n : String) (b : Tpl) :
    ((List.lookup n fs).isSome = true → render (Tpl.cond n b) fs = render b fs)
    ∧ (List.lookup n fs = none → render (Tpl.cond n b) fs = Except.ok (""))
    ∧ render seriesExampleTpl [(("author"), ("Author")), (("title"), ("Title"))]
        = Except.ok ("Author/Title")
    ∧ render (Tpl.cond ("x") (Tpl.lit ("y"))) [(("x"), (""))] = Except.ok ("y") := by
  refine ⟨?_, ?_, rfl, rfl⟩
  · intro h
    rcases Option.isSome_iff_exists.mp h with ⟨v, hv⟩
    simp [render, hv]
  · intro h
    simp [render, h]

/-- Claim C3 witness: the conditional-block semantics at concrete
mappings: a present (empty-string) field keeps the body, an absent field
erases the block. -/
theorem cond_block_presence_only_witness :
    render (Tpl.cond ("s") (Tpl.lit ("body"))) [(("s"), (""))] = render (Tpl.lit ("body")) [(("s"), (""))]
    ∧ render (Tpl.cond ("s") (Tpl.lit ("body"))) [] = Except.ok ("") :=
  ⟨(cond_block_presence_only [(("s"), (""))] ("s") (Tpl.lit ("body"))).1 (by decide),
   (cond_block_presence_only [] ("s") (Tpl.lit ("body"))).2.1 (by decide)⟩

/-- Claim C4: a present tag ordinal strictly above zero is returned
unchanged without consulting the filename; an absent tag or the zero
sentinel falls back to filename parsing, and on `02 - title` that
fallback yields 2. -/
theorem tag_ordinal_priority (t : Nat) (f : String) (h1 : 0 < t) (h2 : t < 65536) :
    get_track_number (some t) f = some t
    ∧ get_track_number (some 0) f = parse_from_filename f
    ∧ get_track_number none f = parse_from_filename f
    ∧ get_track_number (some 0) ("02 - title") = some 2 := by
  refine ⟨?_, rfl, rfl, by decide⟩
  simp only [get_track_number]
  rw [if_pos h1, Nat.mod_eq_of_lt h2]

/-- Claim C4 witness: the theorem at tag value 5. -/
theorem tag_ordinal_priority_witness :
    get_track_number (some 5) ("x") = some 5 :=
  (tag_ordinal_priority 5 ("x") (by decide) (by decide)).1

/-- Claim C5: whenever the explicit-context pattern (section, chapter,
part or track, optional hash, digits) matches anywhere in the filename
and its ordinal fits the 16-bit range, resolution returns that number
immediately; no ignore-list or later-rule condition appears.  In
particular `Book 3 - section 7 - title` resolves to 7 even though other
rules would match. -/
theorem explicit_context_overrides (s : String) (ds : List Char)
    (h1 : scanFind contextMatchAt none s.data = some ds)
    (h2 : digitsVal ds < 65536) :
    get_track_number none s = some (digitsVal ds)
    ∧ get_track_number none ("Book 3 - section 7 - title") = some 7 := by
  refine ⟨?_, by decide⟩
  simp only [get_track_number, parse_from_filename, parseFromFilenameL, h1, u16parse]
  rw [if_pos h2]

/-- Claim C5 witness: the theorem at the section 8 example, where the
context number 7 shares the filename with a book number and a leading
candidate. -/
theorem explicit_context_overrides_witness :
    get_track_number none ("Book 3 - section 7 - title") = some 7 :=
  (explicit_context_overrides ("Book 3 - section 7 - title") (("7").data)
    (by decide) (by decide)).1

/-- Claim C6 counterexample: in `Book 3 - Book 5 - title - 5` the number
5 immediately follows the second `Book` keyword (the book pattern
matches at that position), yet the ignore list holds only 3 — the source
calls `captures`, which takes only the first match — and the delimited
suffix rule accepts 5.  Under the claim as stated every book-following
number would be ignored and the input would resolve to `None`. -/
theorem book_ignore_second_occurrence_counterexample :
    parse_from_filename ("Book 3 - Book 5 - title - 5") = some 5
    ∧ ignoreListOf (("Book 3 - Book 5 - title - 5").data) = [3]
    ∧ bookMatchAt (some ' ') (List.drop 9 (("Book 3 - Book 5 - title - 5").data))
        = some [('5')] := by
  decide

/-- Claim C6, amended: the number following the first (leftmost)
case-insensitive `book` keyword is placed in the ignore set before rules
c through g run, so candidates equal to that number are rejected by those
rules while other candidates remain acceptable; numbers following later
`book` occurrences are not ignored.  In particular `Book 3 - title`
resolves to `None` and `Book 3 - title - 02` resolves to 2. -/
theorem first_book_number_ignored (l : List Char) (ds : List Char)
    (h1 : scanFind bookMatchAt none l = some ds)
    (h2 : digitsVal ds < 65536) :
    digitsVal ds ∈ ignoreListOf l
    ∧ parse_from_filename ("Book 3 - title") = none
    ∧ parse_from_filename ("Book 3 - title - 02") = some 2 := by
  refine ⟨?_, by decide, by decide⟩
  simp only [ignoreListOf, bookPart, h1, u16keep]
  rw [if_pos h2]
  simp

/-- Claim C6 witness: the amended theorem at `Book 3 - title - 02`. -/
theorem first_book_number_ignored_witness :
    (3 : Nat) ∈ ignoreListOf (("Book 3 - title - 02").data) :=
  (first_book_number_ignored (("Book 3 - title - 02").data) (("3").data)
    (by decide) (by decide)).1

/-- Claim C7 counterexample: in `title 12-34-56-78` the substring
`34-56-78` has exactly the short date form at a word boundary (the
single-position matcher accepts it), but the scans collect only the
leftmost non-overlapping match `12-34-56`, so 78 never enters the ignore
list and the suffix rule returns it.  Under the claim as stated every
component of every recognizable date substring would be ignored and the
input, having no other candidates, would resolve to `None`. -/
theorem overlapping_date_counterexample :
    parse_from_filename ("title 12-34-56-78") = some 78
    ∧ ignoreListOf (("title 12-34-56-78").data) = [12, 34, 56]
    ∧ (dateShortMatchAt (some '-') (List.drop 9 (("title 12-34-56-78").data))).isSome
        = true := by
  decide

/-- Claim C7, amended: all numeric components of the leftmost
non-overlapping matches of each date form (ISO, common, short), scanned
left to right per form, are added to the ignore set whenever they parse
into the 16-bit range, with no calendar validity check; a date-shaped
substring overlapping an earlier match of the same form is skipped.  A
filename whose only candidates are such collected components resolves to
`None`, e.g. `author - title 11/27/25 with date`. -/
theorem date_components_enter_ignore (l : List Char) (c : Caps3) :
    (c ∈ dateIsoCaps l →
      (digitsVal c.1 < 65536 → digitsVal c.1 ∈ ignoreListOf l)
      ∧ (digitsVal c.2.1 < 65536 → digitsVal c.2.1 ∈ ignoreListOf l)
      ∧ (digitsVal c.2.2 < 65536 → digitsVal c.2.2 ∈ ignoreListOf l))
    ∧ (c ∈ dateCommonCaps l →
      (digitsVal c.1 < 65536 → digitsVal c.1 ∈ ignoreListOf l)
      ∧ (digitsVal c.2.1 < 65536 → digitsVal c.2.1 ∈ ignoreListOf l)
      ∧ (digitsVal c.2.2 < 65536 → digitsVal c.2.2 ∈ ignoreListOf l))
    ∧ (c ∈ dateShortCaps l →
      (digitsVal c.1 < 65536 → digitsVal c.1 ∈ ignoreListOf l)
      ∧ (digitsVal c.2.1 < 65536 → digitsVal c.2.1 ∈ ignoreListOf l)
      ∧ (digitsVal c.2.2 < 65536 → digitsVal c.2.2 ∈ ignoreListOf l))
    ∧ parse_from_filename ("author - title 11/27/25 with date") = none := by
  refine ⟨?_, ?_, ?_, by decide⟩
  · intro hc
    exact ⟨fun h => mem_ignore_of_iso hc (mem_caps3Comps_fst h),
      fun h => mem_ignore_of_iso hc (mem_caps3Comps_snd h),
      fun h => mem_ignore_of_iso hc (mem_caps3Comps_thd h)⟩
  · intro hc
    exact ⟨fun h => mem_ignore_of_common hc (mem_caps3Comps_fst h),
      fun h => mem_ignore_of_common hc (mem_caps3Comps_snd h),
      fun h => mem_ignore_of_common hc (mem_caps3Comps_thd h)⟩
  · intro hc
    exact ⟨fun h => mem_ignore_of_short hc (mem_caps3Comps_fst h),
      fun h => mem_ignore_of_short hc (mem_caps3Comps_snd h),
      fun h => mem_ignore_of_short hc (mem_caps3Comps_thd h)⟩

/-- Claim C7 witness: the amended theorem applied to the short-form
capture of `a 1-2-34`; its first component 1 is in the ignore list. -/
theorem date_components_enter_ignore_witness :
    (1 : Nat) ∈ ignoreListOf (("a 1-2-34").data) :=
  ((date_components_enter_ignore (("a 1-2-34").data)
    ((("1").data, ("2").data, ("34").data))).2.2.1 (by decide)).1 (by decide)

/-- Claim C8: immediately before rendering, `fmt_path` derives
`book_number_with_zeros` from `book_number` at width 2 and the file-side
mutation derives `file_number_with_zeros` from the inferred
`file_number` at width 3; padding keeps the full digit count when the
decimal form already reaches the width, and an absent integer source
leaves the derived field absent.  Concretely 3 pads to `03`, 150 stays
`150`, and 7 pads to `007` at width 3. -/
theorem zero_padding_correct (tpl : Tpl) (m : Metadata) (stem : String)
    (tag : Option Nat) (n : Nat) :
    (2 ≤ (Nat.repr n).length → padZeros 2 n = Nat.repr n)
    ∧ (3 ≤ (Nat.repr n).length → padZeros 3 n = Nat.repr n)
    ∧ (m.book_number = none → (fmt_path tpl m).1.book_number_with_zeros = none)
    ∧ (fmt_path tpl m).1.book_number_with_zeros = m.book_number.map (padZeros 2)
    ∧ (fmt_path tpl m).1.book_number = m.book_number
    ∧ (fmtFileMeta m stem tag).file_number_with_zeros
        = (get_track_number tag stem).map (padZeros 3)
    ∧ (fmtFileMeta m stem tag).file_number = get_track_number tag stem
    ∧ padZeros 2 3 = ("03") ∧ padZeros 2 150 = ("150")
    ∧ padZeros 3 7 = ("007") ∧ padZeros 3 150 = ("150") := by
  refine ⟨?_, ?_, ?_, rfl, rfl, rfl, rfl, rfl, rfl, rfl, rfl⟩
  · intro h
    simp only [padZeros]
    rw [if_neg (by omega)]
  · intro h
    simp only [padZeros]
    rw [if_neg (by omega)]
  · intro h
    simp [fmt_path, h]

/-- Claim C8 witness: no truncation at 150 for both widths and an absent
source stays absent. -/
theorem zero_padding_correct_witness :
    padZeros 2 150 = Nat.repr 150
    ∧ padZeros 3 150 = Nat.repr 150
    ∧ (fmt_path Tpl.nil { title := ("T") }).1.book_number_with_zeros = none :=
  ⟨(zero_padding_correct Tpl.nil { title := ("T") } ("x") none 150).1 (by decide),
   (zero_padding_correct Tpl.nil { title := ("T") } ("x") none 150).2.1 (by decide),
   (zero_padding_correct Tpl.nil { title := ("T") } ("x") none 150).2.2.1 rfl⟩

/-- Claim C9: path rendering is a pure function of the template and the
record's authoritative fields.  Feeding the record mutated by one call
into a second call reproduces the first call's output and record
exactly, and the result never depends on whatever stale value the
derived `book_number_with_zeros` field held on entry (it is recomputed
from `book_number` at line 33 before every render). -/
theorem fmt_path_deterministic_idempotent (tpl : Tpl) (m : Metadata) (s : Option String) :
    fmt_path tpl ((fmt_path tpl m).1) = fmt_path tpl m
    ∧ fmt_path tpl { m with book_number_with_zeros := s } = fmt_path tpl m :=
  ⟨rfl, rfl⟩

/-- Claim C10 counterexample: the extensionless file name `README` is not
in the allowed list `[mp3]`, but `fmt_file` panics on it — the source
unwraps `extension()`, which is `None` — instead of returning
`Ok("README")`. -/
theorem extensionless_panics_counterexample :
    fmt_file Tpl.nil { title := ("T") } ("README") [("mp3")] none = none := by
  rfl

/-- Claim C10, amended: for every file that has an extension and whose
extension is not in the caller-supplied allowed list, `fmt_file` returns
`Ok` with the original full name unchanged, renders no template, infers
no number, and returns the metadata record unmodified (the conclusion is
independent of the template and the tag probe); a file without an
extension makes `fmt_file` abort on the `extension()` unwrap. -/
theorem disallowed_extension_passthrough (tpl : Tpl) (m : Metadata) (fname : String)
    (exts : List String) (tag : Option Nat) (stemL extL : List Char)
    (h0 : ¬(fname = "" ∨ fname = "." ∨ fname = ".."))
    (h1 : splitExt fname.data = (stemL, some extL))
    (h2 : exts.contains (String.mk extL) = false) :
    fmt_file tpl m fname exts tag = some (m, Except.ok fname) := by
  simp only [fmt_file, h1, h2]
  rw [if_neg h0]
  simp [h2]

/-- Claim C10 witness: a `txt` file against an `mp3`-only list passes
through untouched. -/
theorem disallowed_extension_passthrough_witness :
    fmt_file Tpl.nil { title := ("T") } ("b.txt") [("mp3")] none
      = some ({ title := ("T") }, Except.ok ("b.txt")) :=
  disallowed_extension_passthrough Tpl.nil { title := ("T") } ("b.txt") [("mp3")] none
    (("b").data) (("txt").data) (by decide) (by decide) (by decide)
